import Mathlib

/-!
Verification of the entity resolution and caching engine of the any-inventree
repository.  The Python modules `scripts/utils/entity_resolver.py`,
`scripts/utils/cache.py`, `scripts/utils/csv_db_writer.py`,
`scripts/utils/relation_utils.py`, `scripts/utils/part_creation.py`,
`scripts/utils/csv_processing.py` and their older counterparts under
`source/utils/` are embedded shallowly: the module-global mutable state is
collected into one explicit state record `St` and every operation is a pure
function `... → St → result × St`.
-/

namespace AnyInventree

/-- A Python value as it occurs in payload dictionaries and pandas rows:
a string, an int, a bool, the float NaN (what pandas yields for a missing
CSV cell) or `None`. -/
inductive PyVal where
  | str (s : String)
  | int (n : Int)
  | bool (b : Bool)
  | nan
  | none
deriving DecidableEq, Repr

/-- Python `str(v)`.  `str(True) = "True"`, `str(None) = "None"`,
`str(float("nan")) = "nan"`. -/
def pyStr : PyVal → String
  | .str s => s
  | .int n => toString n
  | .bool true => "True"
  | .bool false => "False"
  | .nan => "nan"
  | .none => "None"

/-- `pd.isna(v)`: true exactly on NaN and None. -/
def pdIsna : PyVal → Bool
  | .nan => true
  | .none => true
  | _ => false

/-- Python truthiness of a value (NaN is truthy, `None`, `""`, `0` are not). -/
def pyTruthy : PyVal → Bool
  | .str s => !(s == "")
  | .int n => n != 0
  | .bool b => b
  | .nan => true
  | .none => false

/-- Python `str.split(sep)` for a one-character separator, over the
character list: splitting never drops empty pieces (`"".split("/") == [""]`,
`"/".split("/") == ["", ""]`). -/
def splitCharAux (c : Char) : List Char → List (List Char)
  | [] => [[]]
  | x :: xs =>
    let r := splitCharAux c xs
    if x = c then [] :: r
    else
      match r with
      | [] => [[x]]
      | g :: gs => (x :: g) :: gs

/-- Python `s.split(c)`. -/
def pySplit (s : String) (c : Char) : List String :=
  (splitCharAux c s.data).map String.mk

/-- Python `str.strip()`: drop leading and trailing whitespace. -/
def pyStrip (s : String) : String :=
  String.mk (((s.data.dropWhile Char.isWhitespace).reverse.dropWhile
    Char.isWhitespace).reverse)

/-- Python `str.lower()` for the ASCII strings handled here. -/
def pyLower (s : String) : String := String.mk (s.data.map Char.toLower)

/-- A Python dict with string keys, in insertion order. -/
abbrev Payload := List (String × PyVal)

/-- Dict membership test (`k in d`). -/
def pmem (d : Payload) (k : String) : Bool := d.any (·.1 == k)

/-- Dict lookup (`d[k]` / `d.get(k)`), `none` when the key is absent. -/
def pget (d : Payload) (k : String) : Option PyVal := (d.find? (·.1 == k)).map (·.2)

/-- Dict lookup with default (`d.get(k, v)`). -/
def pgetD (d : Payload) (k : String) (v : PyVal) : PyVal := (pget d k).getD v

/-- Association-list lookup, mirroring `dict.get`. -/
def aget {α β : Type} [BEq α] (m : List (α × β)) (k : α) : Option β :=
  (m.find? (·.1 == k)).map (·.2)

/-- Association-list assignment, mirroring `dict[k] = v`: overwrite in place
when the key exists, append otherwise (Python dicts keep insertion order). -/
def aset {α β : Type} [BEq α] (m : List (α × β)) (k : α) (v : β) : List (α × β) :=
  if m.any (·.1 == k) then m.map (fun p => if p.1 == k then (k, v) else p)
  else m ++ [(k, v)]

/-- `d.update(d2)`: assign every entry of `d2` into `d` in order. -/
def updateMap {α β : Type} [BEq α] (m m2 : List (α × β)) : List (α × β) :=
  m2.foldl (fun acc p => aset acc p.1 p.2) m

/-- The entity kinds registered in the resolver's cache and identifier
tables (`caches` / `IDENTIFIER_LUT` in `entity_resolver.py`). -/
inductive EntityKind where
  | Attachment
  | BomItem
  | Company
  | ManufacturerPart
  | Parameter
  | ParameterTemplate
  | Part
  | PartCategory
  | PartRelated
  | StockItem
  | StockLocation
  | SupplierPart
deriving DecidableEq, Repr

/-- The kinds in the dict-literal order of `caches` in both variants. -/
def allEntityKinds : List EntityKind :=
  [.Attachment, .BomItem, .Company, .ManufacturerPart, .Parameter,
   .ParameterTemplate, .Part, .PartCategory, .PartRelated, .StockItem,
   .StockLocation, .SupplierPart]

/-- `IDENTIFIER_LUT`: the ordered identifier field names per entity kind
(identical tables in `entity_resolver.py` and `cache.py`, both variants). -/
def IDENTIFIER_LUT : EntityKind → List String
  | .Attachment => ["link", "model_id"]
  | .BomItem => ["part", "sub_part"]
  | .Company => ["name"]
  | .ManufacturerPart => ["MPN"]
  | .Parameter => ["part", "template"]
  | .ParameterTemplate => ["name"]
  | .Part => ["name", "category", "revision"]
  | .PartCategory => ["name", "parent"]
  | .PartRelated => ["part_1", "part_2"]
  | .StockItem => ["part", "supplier_part"]
  | .StockLocation => ["name"]
  | .SupplierPart => ["SKU"]

/-- `tuple(str(data[identifier]) for identifier in identifiers if identifier
in data)` — the composite key of `resolve_entity`.  Identifier fields absent
from the payload are silently skipped. -/
def compositeKey (k : EntityKind) (data : Payload) : List String :=
  (IDENTIFIER_LUT k).filterMap (fun f => (pget data f).map pyStr)

/-- One entity instance held by the live backing store: its kind, its
store-assigned pk, and its attributes (the payload it was created with). -/
structure ApiEntity where
  kind : EntityKind
  pk : Int
  fields : Payload
deriving DecidableEq, Repr

/-- `tuple(str(getattr(entity, identifier)) for identifier in identifiers)` —
the key under which a fetched entity is cached by `resolve_entity`. -/
def entityKeyOf (k : EntityKind) (e : ApiEntity) : List String :=
  (IDENTIFIER_LUT k).map (fun f => pyStr ((pget e.fields f).getD .none))

namespace ErrorCodes

def SUCCESS : Nat := 0
def INVALID_PK : Nat := 1
def INVALID_NAME : Nat := 2
def INVALID_DATA : Nat := 3
def FILE_ERROR : Nat := 10
def API_ERROR : Nat := 30
def ENTITY_CREATION_FAILED : Nat := 40
def PARAMETER_ERROR : Nat := 50
def PART_NOT_FOUND : Nat := 52
def SUPPLIER_ERROR : Nat := 60
def CATEGORY_ERROR : Nat := 70
def RELATION_CREATION_FAILED : Nat := 90
def RELATIONS_ERROR : Nat := 91
def PART_CREATION_ERROR : Nat := 100

end ErrorCodes

/-- A key of the `EntityCache.caches` dict in `cache.py`.  The dict is keyed
by entity classes, but `fetch_id_counters` in `csv_db_writer.py` looks it up
with plain strings such as `'part'`; such a lookup never matches a class key,
so both key shapes are modelled. -/
inductive ECKey where
  | cls (k : EntityKind)
  | str (s : String)
deriving DecidableEq, Repr

/-- One per-kind map of `EntityCache`: composite key (raw attribute values,
not stringified) to pk. -/
abbrev ECMap := List (List PyVal × Int)

/-- One per-kind map of the resolver's module-global `caches`:
stringified composite key to pk. -/
abbrev RMap := List (List String × Int)

/-- The class-level state of `CsvDbWriter`. -/
structure WriterState where
  /-- `CSV_DB_WRITER_IS_ACTIVE` -/
  active : Bool
  /-- `_id_counters_fetched` -/
  countersFetched : Bool
  /-- `ID_UPPER_LIMIT` -/
  idUpper : List (String × Int)
  /-- `DB_PART_ROWS` -/
  partRows : List Payload
  /-- `DB_PARTPARAMETER_ROWS` -/
  partparameterRows : List Payload
  /-- `DB_PARTRELATED_ROWS` -/
  partrelatedRows : List Payload
  /-- `DB_MANUFACTURERPART_ROWS` -/
  manufacturerpartRows : List Payload
  /-- `DB_ATTACHMENT_ROWS` -/
  attachmentRows : List Payload
  /-- `DB_SUPPLIERPART_ROWS` -/
  supplierpartRows : List Payload
deriving DecidableEq, Repr

/-- The program state: the live backing store, the module-global caches and
accumulators of the Python modules, and the flat-file output of the last
flush. -/
structure St where
  /-- Contents of the live backing store (the remote API). -/
  api : List ApiEntity
  /-- The next pk the live backing store will assign on `create`. -/
  apiNextPk : Int
  /-- Kinds whose `list()` call raises (models a fetch/network failure). -/
  apiFail : List EntityKind
  /-- `entity_resolver.caches` -/
  caches : List (EntityKind × RMap)
  /-- The `cache.EntityCache` singleton's `caches` dict. -/
  ecache : List (ECKey × ECMap)
  /-- `CsvDbWriter` class state. -/
  writer : WriterState
  /-- `relation_utils._pending_relations` -/
  pendingRelations : List (Int × String)
  /-- `part_creation.CURRENT_HIGHEST_PK` -/
  partCreationNextPk : Int
  /-- `part_creation.PART_ROWS` -/
  partCreationRows : List Payload
  /-- The KiCad plugin's `category_cache` (category pks). -/
  kicadCache : List Int
  /-- Categories registered in the KiCad plugin service. -/
  kicadRemote : List Int
  /-- `get_site_url()` (configuration, constant during a run). -/
  siteUrl : String
  /-- Files written by the last `write_all_db_csv` flush:
  filename with the projected row values. -/
  outputFiles : List (String × List (List PyVal))
deriving DecidableEq, Repr

/-- The resolver cache for one kind (`caches[entity_type]`). -/
def cacheOf (st : St) (k : EntityKind) : RMap := (aget st.caches k).getD []

def writerInit : WriterState :=
  { active := false
    countersFetched := false
    idUpper := [("attachment", 0), ("part", 0), ("partparameter", 0),
                ("partrelated", 0), ("manufacturerpart", 0), ("supplierpart", 0)]
    partRows := []
    partparameterRows := []
    partrelatedRows := []
    manufacturerpartRows := []
    attachmentRows := []
    supplierpartRows := [] }

/-- The state at interpreter start against an empty backing store whose first
assigned pk is 1. -/
def initSt : St :=
  { api := []
    apiNextPk := 1
    apiFail := []
    caches := allEntityKinds.map (fun k => (k, []))
    ecache := allEntityKinds.map (fun k => (ECKey.cls k, []))
    writer := writerInit
    pendingRelations := []
    partCreationNextPk := 1
    partCreationRows := []
    kicadCache := []
    kicadRemote := []
    siteUrl := "http://inventree.local"
    outputFiles := [] }

/-- `entity_type.create(api, data)`: the live store assigns the next pk and
records the entity; the created object's attributes are the payload. -/
def apiCreate (k : EntityKind) (data : Payload) (st : St) : Int × St :=
  (st.apiNextPk,
   { st with api := st.api ++ [⟨k, st.apiNextPk, data⟩], apiNextPk := st.apiNextPk + 1 })

/-- The dict comprehension of `resolve_entity` over `entity_type.list(api)`:
stringified composite key of each fetched entity to its pk. -/
def entityDictOf (k : EntityKind) (ents : List ApiEntity) : RMap :=
  ents.foldl (fun m e => aset m (entityKeyOf k e) e.pk) []

/-- `EntityCache.add` applied to one fetched item: the composite key is the
tuple of raw identifier attribute values (`getattr(item, attr, None)`). -/
def ecAddItem (k : EntityKind) (m : ECMap) (e : ApiEntity) : ECMap :=
  aset m ((IDENTIFIER_LUT k).map (fun f => (pget e.fields f).getD .none)) e.pk

/-- The paginated `while True` loop of `EntityCache.populate` for one kind,
with an explicit iteration budget: `items = entity_cls.list(api, limit=chunk,
offset=offset)`, stop on an empty page, add every item, stop when the page
is short, else advance the offset.  Every loop pass with a non-empty page
advances `offset` by `chunk ≥ 1`, so at most `ents.length` passes see items
and one more sees the empty page: a budget of `ents.length + 1` (as passed
by `populateLoop`) never runs out before the loop's own exit conditions. -/
def populateLoopF (k : EntityKind) (ents : List ApiEntity) (chunk : Nat) :
    Nat → Nat → ECMap → ECMap
  | 0, _, m => m
  | fuel + 1, offset, m =>
    if ((ents.drop offset).take chunk).isEmpty then m
    else
      let m' := ((ents.drop offset).take chunk).foldl (ecAddItem k) m
      if ((ents.drop offset).take chunk).length < chunk then m'
      else populateLoopF k ents chunk fuel (offset + chunk) m'

/-- The `while True` loop of `EntityCache.populate` for one kind. -/
def populateLoop (k : EntityKind) (ents : List ApiEntity) (chunk offset : Nat)
    (m : ECMap) : ECMap :=
  populateLoopF k ents chunk (ents.length + 1) offset m

/-- One iteration of the `for entity_cls in entity_types` loop of
`EntityCache.populate`: reset the kind's map, then run the fetch loop.
The boolean is false when the kind's fetch raised (the exception escapes to
the handler around the whole loop). -/
def ecPopulateKind (chunk : Nat) (st : St) (k : EntityKind) : St × Bool :=
  let st1 := { st with ecache := aset st.ecache (.cls k) [] }
  if st1.apiFail.contains k then (st1, false)
  else
    let m := populateLoop k (st1.api.filter (·.kind == k)) chunk 0 []
    ({ st1 with ecache := aset st1.ecache (.cls k) m }, true)

/-- The `for` loop of `EntityCache.populate`.  The `try` block wraps the
whole loop, so a raising kind stops the iteration; the exception is caught
and logged at the populate level. -/
def ecPopulateGo (chunk : Nat) : List EntityKind → St → St
  | [], st => st
  | k :: rest, st =>
    match ecPopulateKind chunk st k with
    | (st', true) => ecPopulateGo chunk rest st'
    | (st', false) => st'

/-- `EntityCache.populate(api, keys, chunk_size)` with an explicit key list. -/
def ecPopulate (keys : List EntityKind) (chunk : Nat) (st : St) : St :=
  ecPopulateGo chunk keys st

/-- The class keys of the `EntityCache.caches` dict, in order
(`list(self.caches.keys())`). -/
def ecKinds (st : St) : List EntityKind :=
  st.ecache.filterMap (fun p => match p.1 with | .cls k => some k | .str _ => Option.none)

/-- `EntityCache.populate(api)` with `keys=None`: all kinds, default
`chunk_size=500`. -/
def ecPopulateAll (st : St) : St := ecPopulate (ecKinds st) 500 st

/-- Python `str.zfill` for the non-negative strings it is applied to. -/
def zfill (s : String) (w : Nat) : String :=
  String.mk (List.replicate (w - s.length) '0') ++ s

/-- `CsvDbWriter.get_next_id(key)`: increment and return `ID_UPPER_LIMIT[key]`. -/
def getNextId (key : String) (st : St) : Int × St :=
  let v := (aget st.writer.idUpper key).getD 0 + 1
  (v, { st with writer := { st.writer with idUpper := aset st.writer.idUpper key v } })

/-- `max((x['pk'] for x in xs), default=None)` over an `EntityCache` map. -/
def maxPkOf (m : ECMap) : Option Int := (m.map (·.2)).max?

def setIdUpper (key : String) (v : Option Int) (st : St) : St :=
  match v with
  | some u => { st with writer := { st.writer with idUpper := aset st.writer.idUpper key u } }
  | Option.none => st

/-- `CsvDbWriter.fetch_id_counters(api)`.  Every lookup into the entity
cache uses a plain string key (`entity_cache.get('part')`, ...), but the
`EntityCache.caches` dict is keyed by entity classes, so each lookup misses:
the populate runs, every `upper` is `None`, and `ID_UPPER_LIMIT` keeps its
previous values. -/
def fetchIdCounters (st : St) : St :=
  let st1 := if (aget st.ecache (ECKey.str "part")).isNone then ecPopulateAll st else st
  let st2 := setIdUpper "part" (maxPkOf ((aget st1.ecache (ECKey.str "part")).getD [])) st1
  let st3 := setIdUpper "partparameter" (maxPkOf ((aget st2.ecache (ECKey.str "parameter")).getD [])) st2
  let st4 := setIdUpper "partrelated" (maxPkOf ((aget st3.ecache (ECKey.str "partrelated")).getD [])) st3
  let st5 := setIdUpper "manufacturerpart" (maxPkOf ((aget st4.ecache (ECKey.str "manufacturerpart")).getD [])) st4
  let st6 := setIdUpper "attachment" (maxPkOf ((aget st5.ecache (ECKey.str "attachment")).getD [])) st5
  setIdUpper "supplierpart" (maxPkOf ((aget st6.ecache (ECKey.str "supplierpart")).getD [])) st6

def DB_PART_COLUMNS : List String :=
  ["id", "name", "description", "keywords", "IPN", "link", "image",
   "minimum_stock", "units", "trackable", "purchaseable", "salable", "active",
   "notes", "bom_checksum", "bom_checked_date", "bom_checked_by_id",
   "category_id", "default_location_id", "default_supplier_id", "is_template",
   "variant_of_id", "assembly", "component", "virtual", "revision",
   "creation_date", "creation_user_id", "level", "lft", "rght", "tree_id",
   "default_expiry", "base_cost", "multiple", "metadata", "barcode_data",
   "barcode_hash", "last_stocktake", "responsible_owner_id", "locked",
   "revision_of_id", "testable"]

def DB_PARTPARAMETER_COLUMNS : List String :=
  ["id", "data", "part_id", "template_id", "data_numeric", "metadata"]

def DB_PARTRELATED_COLUMNS : List String :=
  ["id", "part_1_id", "part_2_id", "metadata", "note"]

def DB_MANUFACTURERPART_COLUMNS : List String :=
  ["id", "MPN", "link", "description", "manufacturer_id", "part_id",
   "metadata", "barcode_data", "barcode_hash", "notes"]

def DB_ATTACHMENT_COLUMNS : List String :=
  ["id", "model_id", "attachment", "link", "comment", "upload_date",
   "file_size", "model_type", "upload_user_id", "metadata"]

def DB_SUPPLIERPART_COLUMNS : List String :=
  ["id", "SKU", "link", "description", "note", "base_cost", "packaging",
   "multiple", "part_id", "supplier_id", "manufacturer_part_id",
   "availability_updated", "available", "barcode_data", "barcode_hash",
   "updated", "metadata", "pack_quantity", "pack_quantity_native", "active",
   "notes"]

set_option maxHeartbeats 1000000 in
/-- `CsvDbWriter.add_part_row_db(data)`. -/
def writerAddPartRow (data : Payload) (st : St) : Int × St :=
  let (id, st) := getNextId "part" st
  let category_pk := pgetD data "category" (.str "")
  let name := pgetD data "name" (.str "")
  let description := pgetD data "description" (.str "")
  let link := st.siteUrl ++ "/part/" ++ toString id ++ "/"
  let minimum_stock := pgetD data "minimum_stock" (.str "0")
  let revision := pgetD data "revision" (.str "0")
  let notes := pgetD data "notes" (.str "")
  let is_virtual := pyLower (pyStrip (pyStr (pgetD data "type" (.str "")))) == "generic"
    || pyLower (pyStrip (pyStr (pgetD data "type" (.str "")))) == "critical"
  let designator := pgetD data "designator" (.str "")
  let rev0_str := zfill (toString id) 6
  let ipn := pyStr designator ++ rev0_str ++ "-" ++ toString id
  let out_row : Payload :=
    [("id", .int id), ("name", name), ("description", description),
     ("keywords", .str ""), ("IPN", .str ipn), ("link", .str link),
     ("image", .str ""), ("minimum_stock", minimum_stock), ("units", .str ""),
     ("trackable", .str "false"), ("purchaseable", .str "true"),
     ("salable", .str "false"), ("active", .str "true"), ("notes", notes),
     ("bom_checksum", .str ""), ("bom_checked_date", .str ""),
     ("bom_checked_by_id", .str ""), ("category_id", category_pk),
     ("default_location_id", .str ""), ("default_supplier_id", .str ""),
     ("is_template", .str "false"), ("variant_of_id", .str ""),
     ("assembly", .str "false"), ("component", .str "false"),
     ("virtual", .str (if is_virtual then "true" else "false")),
     ("revision", revision), ("creation_date", .str "2025-09-04"),
     ("creation_user_id", .str "1"), ("level", .str "0"),
     ("lft", .str (toString id)), ("rght", .str (toString (id + 1))),
     ("tree_id", .str "1"), ("default_expiry", .str "0"),
     ("base_cost", .str "0"), ("multiple", .str "1"),
     ("metadata", .str "\x7b\x7d"), ("barcode_data", .str ""),
     ("barcode_hash", .str ""), ("last_stocktake", .str ""),
     ("responsible_owner_id", .str ""), ("locked", .str "false"),
     ("revision_of_id", .str ""), ("testable", .str "false")]
  (id, { st with writer := { st.writer with partRows := st.writer.partRows ++ [out_row] } })

/-- `CsvDbWriter.add_partparameter_db(data)`. -/
def writerAddPartparameter (data : Payload) (st : St) : Int × St :=
  let (id, st) := getNextId "partparameter" st
  let out_row : Payload :=
    [("id", .int id), ("data", pgetD data "data" (.str "")),
     ("part_id", pgetD data "part" (.str "")),
     ("template_id", pgetD data "template" (.str "")),
     ("data_numeric", pgetD data "data_numeric" (.str "")),
     ("metadata", .str "\x7b\x7d")]
  (id, { st with writer := { st.writer with
          partparameterRows := st.writer.partparameterRows ++ [out_row] } })

/-- `CsvDbWriter.add_partrelated_db(data)`. -/
def writerAddPartrelated (data : Payload) (st : St) : Int × St :=
  let (id, st) := getNextId "partrelated" st
  let out_row : Payload :=
    [("id", .int id), ("part_1_id", pgetD data "part_1" (.str "")),
     ("part_2_id", pgetD data "part_2" (.str "")),
     ("metadata", .str "\x7b\x7d"), ("note", pgetD data "note" (.str ""))]
  (id, { st with writer := { st.writer with
          partrelatedRows := st.writer.partrelatedRows ++ [out_row] } })

/-- `CsvDbWriter.add_manufacturerpart_db(data)`. -/
def writerAddManufacturerpart (data : Payload) (st : St) : Int × St :=
  let (id, st) := getNextId "manufacturerpart" st
  let out_row : Payload :=
    [("id", .int id), ("MPN", pgetD data "MPN" (.str "")), ("link", .str ""),
     ("description", pgetD data "description" (.str "")),
     ("manufacturer_id", pgetD data "manufacturer" (.str "")),
     ("part_id", pgetD data "part" (.str "")), ("metadata", .str "\x7b\x7d"),
     ("barcode_data", .str ""), ("barcode_hash", .str ""),
     ("notes", pgetD data "notes" (.str ""))]
  (id, { st with writer := { st.writer with
          manufacturerpartRows := st.writer.manufacturerpartRows ++ [out_row] } })

/-- `CsvDbWriter.add_supplierpart_db(data)`. -/
def writerAddSupplierpart (data : Payload) (st : St) : Int × St :=
  let (id, st) := getNextId "supplierpart" st
  let out_row : Payload :=
    [("id", .int id), ("SKU", pgetD data "SKU" (.str "")), ("link", .str ""),
     ("description", .str ""), ("note", .str ""), ("base_cost", .str "0"),
     ("packaging", .str ""), ("multiple", .str "0"),
     ("part_id", pgetD data "part" (.str "")),
     ("supplier_id", pgetD data "supplier" (.str "")),
     ("manufacturer_part_id", .str ""), ("availability_updated", .str ""),
     ("available", .str "1"), ("barcode_data", .str ""),
     ("barcode_hash", .str ""), ("updated", .str ""),
     ("metadata", .str "\x7b\x7d"), ("pack_quantity", .str ""),
     ("pack_quantity_native", .str ""), ("active", .str "true"),
     ("notes", .str "")]
  (id, { st with writer := { st.writer with
          supplierpartRows := st.writer.supplierpartRows ++ [out_row] } })

/-- `CsvDbWriter.add_attachment_db(data)`. -/
def writerAddAttachment (data : Payload) (st : St) : Int × St :=
  let (id, st) := getNextId "attachment" st
  let out_row : Payload :=
    [("id", .int id), ("model_id", pgetD data "model_id" (.str "")),
     ("attachment", pgetD data "attachment" (.str "")),
     ("link", pgetD data "link" (.str "")),
     ("comment", pgetD data "comment" (.str "")),
     ("upload_date", pgetD data "upload_date" (.str "2025-09-04")),
     ("file_size", pgetD data "file_size" (.str "0")),
     ("model_type", pgetD data "model_type" (.str "")),
     ("upload_user_id", .str "1"), ("metadata", .str "\x7b\x7d")]
  (id, { st with writer := { st.writer with
          attachmentRows := st.writer.attachmentRows ++ [out_row] } })

/-- `CsvDbWriter.create(api, entity_type, data)`: returns `(pk, error)`;
only the six supported kinds produce a row, everything else fails with
`ENTITY_CREATION_FAILED`. -/
def writerCreate (k : EntityKind) (data : Payload) (st : St) : Option Int × Nat × St :=
  let st := if st.writer.countersFetched then st
    else
      let st' := fetchIdCounters st
      { st' with writer := { st'.writer with countersFetched := true } }
  match k with
  | .Part =>
    let (pk, st') := writerAddPartRow data st
    (some pk, ErrorCodes.SUCCESS, st')
  | .Parameter =>
    let (pk, st') := writerAddPartparameter data st
    (some pk, ErrorCodes.SUCCESS, st')
  | .PartRelated =>
    let (pk, st') := writerAddPartrelated data st
    (some pk, ErrorCodes.SUCCESS, st')
  | .ManufacturerPart =>
    let (pk, st') := writerAddManufacturerpart data st
    (some pk, ErrorCodes.SUCCESS, st')
  | .Attachment =>
    let (pk, st') := writerAddAttachment data st
    (some pk, ErrorCodes.SUCCESS, st')
  | .SupplierPart =>
    let (pk, st') := writerAddSupplierpart data st
    (some pk, ErrorCodes.SUCCESS, st')
  | _ => (Option.none, ErrorCodes.ENTITY_CREATION_FAILED, st)

/-- `CsvDbWriter.write_df_to_csv`: project the buffered rows onto the fixed
column order; an empty buffer writes no file. -/
def writeDfToCsv (rows : List Payload) (columns : List String)
    (filename : String) : Option (String × List (List PyVal)) :=
  if rows.isEmpty then Option.none
  else some (filename, rows.map (fun r => columns.map (fun c => (pget r c).getD .nan)))

/-- `CsvDbWriter.write_all_db_csv()`: flush every buffer to its flat file. -/
def writeAllDbCsv (st : St) : St :=
  { st with outputFiles :=
      [writeDfToCsv st.writer.partRows DB_PART_COLUMNS "part_part.csv",
       writeDfToCsv st.writer.partparameterRows DB_PARTPARAMETER_COLUMNS "part_partparameter.csv",
       writeDfToCsv st.writer.partrelatedRows DB_PARTRELATED_COLUMNS "part_partrelated.csv",
       writeDfToCsv st.writer.manufacturerpartRows DB_MANUFACTURERPART_COLUMNS "company_manufacturerpart.csv",
       writeDfToCsv st.writer.attachmentRows DB_ATTACHMENT_COLUMNS "inventree_attachment.csv",
       writeDfToCsv st.writer.supplierpartRows DB_SUPPLIERPART_COLUMNS "part_supplierpart.csv"].reduceOption }

/-- `entity_resolver.resolving_complete()`. -/
def resolvingComplete (st : St) : St := writeAllDbCsv st

/-- `scripts/utils/entity_resolver.resolve_entity(api, entity_type, data)`:
cache lookup, then a bulk fetch rebuilding the kind's cache, then creation
through the shadow writer (when active, with live-API fallback) or the live
API.  Only the live-API branch records the new pk in the cache.  Returns the
pk or `none` on failure. -/
def resolve_entity (k : EntityKind) (data : Payload) (st : St) : Option Int × St :=
  let identifiers := IDENTIFIER_LUT k
  if identifiers.isEmpty then (Option.none, st)
  else
    let cache := cacheOf st k
    let key := compositeKey k data
    match aget cache key with
    | some pk => (some pk, st)
    | Option.none =>
      if st.apiFail.contains k then (Option.none, st)
      else
        let cache1 := updateMap cache (entityDictOf k (st.api.filter (·.kind == k)))
        let st1 := { st with caches := aset st.caches k cache1 }
        match aget cache1 key with
        | some pk => (some pk, st1)
        | Option.none =>
          if st1.writer.active then
            match writerCreate k data st1 with
            | (pk?, err, st2) =>
              if err == ErrorCodes.ENTITY_CREATION_FAILED || pk?.isNone then
                let (pk, st3) := apiCreate k data st2
                (some pk, st3)
              else (pk?, st2)
          else
            let (pk, st2) := apiCreate k data st1
            (some pk, { st2 with caches := aset st2.caches k (aset cache1 key pk) })

/-- `source/utils/entity_resolver.resolve_entity`: like the scripts variant
but with no shadow writer; creation always goes to the live API and the new
pk is recorded in the cache. -/
def resolve_entity_src (k : EntityKind) (data : Payload) (st : St) : Option Int × St :=
  let identifiers := IDENTIFIER_LUT k
  if identifiers.isEmpty then (Option.none, st)
  else
    let cache := cacheOf st k
    let key := compositeKey k data
    match aget cache key with
    | some pk => (some pk, st)
    | Option.none =>
      if st.apiFail.contains k then (Option.none, st)
      else
        let cache1 := updateMap cache (entityDictOf k (st.api.filter (·.kind == k)))
        let st1 := { st with caches := aset st.caches k cache1 }
        match aget cache1 key with
        | some pk => (some pk, st1)
        | Option.none =>
          let (pk, st2) := apiCreate k data st1
          (some pk, { st2 with caches := aset st2.caches k (aset cache1 key pk) })

/-- `parent_pk` as it appears in the category payloads (`None` before the
first level). -/
def optPk : Option Int → PyVal
  | some n => .int n
  | Option.none => .none

/-- The `for idx, level in enumerate(category_levels)` walk of the scripts
variant of `resolve_category_string`: resolve each level as a `PartCategory`
with the running parent, `structural=True` except on the last level;
a failed resolve aborts with `ENTITY_CREATION_FAILED`. -/
def categoryWalk : List String → Option Int → St → (Option Int × Nat) × St
  | [], parent, st => ((parent, ErrorCodes.SUCCESS), st)
  | level :: rest, parent, st =>
    let data : Payload :=
      [("name", .str level), ("structural", .bool (!rest.isEmpty)), ("parent", optPk parent)]
    match resolve_entity .PartCategory data st with
    | (Option.none, st') => ((Option.none, ErrorCodes.ENTITY_CREATION_FAILED), st')
    | (some pk, st') => categoryWalk rest (some pk) st'

/-- The segment preprocessing shared by both variants of
`resolve_category_string`: split on `/`, keep the segments that are truthy
and not `'nan'` (tested before trimming), then trim each kept segment. -/
def categoryLevels (s : String) : List String :=
  ((pySplit s '/').filter (fun l => !(l == "") && !(pyLower l == "nan"))).map pyStrip

/-- `scripts/utils/entity_resolver.resolve_category_string(api, s)`:
returns `(category_pk, error_code)`. -/
def resolve_category_string (s : String) (st : St) : (Option Int × Nat) × St :=
  let levels := categoryLevels s
  if levels.isEmpty then ((Option.none, ErrorCodes.INVALID_DATA), st)
  else categoryWalk levels Option.none st

/-- The level walk of the source variant: no error handling, the possibly
`None` result of each resolve becomes the next parent. -/
def categoryWalkSrc : List String → Option Int → St → Option Int × St
  | [], parent, st => (parent, st)
  | level :: rest, parent, st =>
    let data : Payload :=
      [("name", .str level), ("structural", .bool (!rest.isEmpty)), ("parent", optPk parent)]
    let (pk?, st') := resolve_entity_src .PartCategory data st
    categoryWalkSrc rest pk? st'

/-- `source/utils/entity_resolver.resolve_category_string(api, s)`:
returns a single value, the leaf pk or `None`. -/
def resolve_category_string_src (s : String) (st : St) : Option Int × St :=
  let levels := categoryLevels s
  if levels.isEmpty then (Option.none, st)
  else categoryWalkSrc levels Option.none st

/-- `relation_utils.add_pending_relation(part_1_pk, part_2_name)` (scripts
variant; the source variant differs only in not returning a code). -/
def add_pending_relation (pk : Int) (name : String) (st : St) : Nat × St :=
  if name == "" then (ErrorCodes.PART_NOT_FOUND, st)
  else (ErrorCodes.SUCCESS,
        { st with pendingRelations := st.pendingRelations ++ [(pk, name)] })

/-- `scripts/utils/relation_utils.resolve_pending_relations(api)`:
project the `EntityCache` Part map to name (first key component) to pk,
resolve a `PartRelated` for every pending pair whose target name is found,
skip the others, then clear the ledger. -/
def resolve_pending_relations (st : St) : Nat × St :=
  let parts : ECMap := (aget st.ecache (ECKey.cls .Part)).getD []
  let part_lookup : List (PyVal × Int) :=
    parts.foldl (fun m p => aset m (p.1.headD .none) p.2) []
  let st' := st.pendingRelations.foldl
    (fun s pr =>
      match aget part_lookup (PyVal.str pr.2) with
      | Option.none => s
      | some pk2 =>
        (resolve_entity .PartRelated [("part_1", .int pr.1), ("part_2", .int pk2)] s).2)
    st
  (ErrorCodes.SUCCESS, { st' with pendingRelations := [] })

/-- `source/utils/relation_utils.resolve_pending_relations(api)`: the part
lookup comes from a live `Part.list(api)` call; a raised fetch is modelled
as `none` (the caller's `try` turns it into `RELATIONS_ERROR`). -/
def resolve_pending_relations_src (st : St) : Option St :=
  if st.apiFail.contains .Part then Option.none
  else
    let parts := st.api.filter (·.kind == .Part)
    let part_lookup : List (PyVal × Int) :=
      parts.foldl (fun m e => aset m ((pget e.fields "name").getD .none) e.pk) []
    let st' := st.pendingRelations.foldl
      (fun s pr =>
        match aget part_lookup (PyVal.str pr.2) with
        | Option.none => s
        | some pk2 =>
          (resolve_entity_src .PartRelated [("part_1", .int pr.1), ("part_2", .int pk2)] s).2)
      st
    some { st' with pendingRelations := [] }

/-- `part_creation.get_next_pk()` (bulk mode counter, post-increment). -/
def partCreationGetNextPk (st : St) : Int × St :=
  (st.partCreationNextPk, { st with partCreationNextPk := st.partCreationNextPk + 1 })

set_option maxHeartbeats 1000000 in
/-- `part_creation.add_part_row_db(api, row, pk, category_pk)`: buffer the
denormalized DB row in `PART_ROWS`. -/
def partCreationAddRowDb (row : Payload) (pk : Int) (category_pk : Int) (st : St) : St :=
  let name := pgetD row "NAME" (.str "")
  let description := pgetD row "DESCRIPTION" (.str "")
  let link := st.siteUrl ++ "/part/" ++ toString pk ++ "/"
  let minimum_stock := pgetD row "MINIMUM_STOCK" (.str "0")
  let revision := pgetD row "REVISION" (.str "0")
  let notes := pgetD row "NOTES" (.str "")
  let is_virtual := pyLower (pyStrip (pyStr (pgetD row "TYPE" (.str "")))) == "generic"
    || pyLower (pyStrip (pyStr (pgetD row "TYPE" (.str "")))) == "critical"
  let designator := pgetD row "DESIGNATOR [str]" (.str "")
  let rev0_str := zfill (toString pk) 6
  let ipn := pyStr designator ++ rev0_str ++ "-" ++ toString pk
  let out_row : Payload :=
    [("id", .int pk), ("name", name), ("description", description),
     ("keywords", .str ""), ("IPN", .str ipn), ("link", .str link),
     ("image", .str ""), ("minimum_stock", minimum_stock), ("units", .str ""),
     ("trackable", .str "false"), ("purchaseable", .str "true"),
     ("salable", .str "false"), ("active", .str "true"), ("notes", notes),
     ("bom_checksum", .str ""), ("bom_checked_date", .str ""),
     ("bom_checked_by_id", .str ""), ("category_id", .int category_pk),
     ("default_location_id", .str ""), ("default_supplier_id", .str ""),
     ("is_template", .str "false"), ("variant_of_id", .str ""),
     ("assembly", .str "false"), ("component", .str "false"),
     ("virtual", .str (if is_virtual then "true" else "false")),
     ("revision", revision), ("creation_date", .str "2025-09-04"),
     ("creation_user_id", .str "1"), ("level", .str "0"),
     ("lft", .str (toString pk)), ("rght", .str (toString (pk + 1))),
     ("tree_id", .str "1"), ("default_expiry", .str "0"),
     ("base_cost", .str "0.000000"), ("multiple", .str "1"),
     ("metadata", .str "\x7b\x7d"), ("barcode_data", .str ""),
     ("barcode_hash", .str ""), ("last_stocktake", .str ""),
     ("responsible_owner_id", .str ""), ("locked", .str "false"),
     ("revision_of_id", .str ""), ("testable", .str "false")]
  { st with partCreationRows := st.partCreationRows ++ [out_row] }

/-- The `RELATEDPARTS` handling of `create_part`: split the comma separated
names, strip, drop empties, record each as a pending relation. -/
def addRelatedParts (pk : Int) (row : Payload) (st : St) : St :=
  match pget row "RELATEDPARTS" with
  | some v =>
    if !pdIsna v && pyTruthy v then
      let parts := ((pySplit (pyStr v) ',').map pyStrip).filter (fun p => !(p == ""))
      parts.foldl (fun s p => (add_pending_relation pk p s).2) st
    else st
  | Option.none => st

/-- `scripts/utils/part_creation.create_part(api, row, category_pk)`.
The module constant `USE_API` is `False` in this variant, so the pk comes
from the bulk counter and no API call is made; the row is buffered and the
forward relations recorded.  A missing mandatory column raises and is
caught by the outer handler (`API_ERROR`). -/
def create_part (row : Payload) (category_pk : Int) (st : St) : (Option Int × Nat) × St :=
  match pget row "NAME", pget row "DESCRIPTION", pget row "TYPE", pget row "REVISION" with
  | some nameVal, some _, some _, some _ =>
    let name := pyStrip (pyStr nameVal)
    if name == "" || pdIsna nameVal then ((Option.none, ErrorCodes.INVALID_NAME), st)
    else
      let (pk, st1) := partCreationGetNextPk st
      let st2 := partCreationAddRowDb row pk category_pk st1
      let st3 := addRelatedParts pk row st2
      ((some pk, ErrorCodes.SUCCESS), st3)
  | _, _, _, _ => ((Option.none, ErrorCodes.API_ERROR), st)

/-- `KiCadPlugin.add_category(category_pk)`: refresh the cache from the
plugin service when empty, skip known categories, otherwise register the
category with the service and cache it. -/
def kicadAddCategory (pk : Int) (st : St) : St :=
  let st1 := if st.kicadCache.isEmpty then { st with kicadCache := st.kicadRemote } else st
  if st1.kicadCache.contains pk then st1
  else { st1 with kicadCache := st1.kicadCache ++ [pk], kicadRemote := st1.kicadRemote ++ [pk] }

/-- The f-string interpolation of a pandas cell (`f"{row['CATEGORY']}"`). -/
def fstrAt (row : Payload) (k : String) : String := pyStr ((pget row k).getD .nan)

/-- The row loop of `scripts/utils/csv_processing.process_database_file`:
category resolution (fatal on failure), KiCad registration for
generic and critical types, part creation (fatal on failure); after the last
row, `resolving_complete()` flushes the shadow-writer buffers.  The
`pd.isna(category_string)` guard of the source is dead code — an
interpolated f-string is never NaN — and the stages the source comments
out (parameters, suppliers, pending relations) are omitted likewise. -/
def processRows : List Payload → St → Nat × St
  | [], st => (ErrorCodes.SUCCESS, resolvingComplete st)
  | row :: rest, st =>
    let category_string := fstrAt row "CATEGORY" ++ " / " ++ fstrAt row "TYPE"
    match resolve_category_string category_string st with
    | ((Option.none, _), st') => (ErrorCodes.CATEGORY_ERROR, st')
    | ((some catPk, err), st') =>
      if err != ErrorCodes.SUCCESS then (ErrorCodes.CATEGORY_ERROR, st')
      else
        let st2 :=
          if (pget row "TYPE").getD .nan == PyVal.str "generic"
             || (pget row "TYPE").getD .nan == PyVal.str "critical"
          then kicadAddCategory catPk st' else st'
        match create_part row catPk st2 with
        | ((_, errp), st3) =>
          if errp != ErrorCodes.SUCCESS then (ErrorCodes.PART_CREATION_ERROR, st3)
          else processRows rest st3

/-- `scripts/utils/csv_processing.process_database_file(api, filename)` on
an already-parsed row list: `for i, row in df.iloc[:4].iterrows()` only ever
visits the first 4 rows. -/
def process_database_file (rows : List Payload) (st : St) : Nat × St :=
  processRows (rows.take 4) st

/-- The outcome of a Python call: a returned error code, or an uncaught
exception. -/
inductive PyOutcome where
  | ok (code : Nat)
  | exn (msg : String)
deriving DecidableEq, Repr

/-- The epilogue of the source variant of `process_database_file`:
`resolve_pending_relations` under a `try` that maps a raise to
`RELATIONS_ERROR`, then `SUCCESS`. -/
def processRowsSrcDone (st : St) : PyOutcome × St :=
  match resolve_pending_relations_src st with
  | some st' => (.ok ErrorCodes.SUCCESS, st')
  | Option.none => (.ok ErrorCodes.RELATIONS_ERROR, st)

/-- The row loop of `source/utils/csv_processing.process_database_file`:
`for i, row in df.iterrows(): if i >= 12: break ...`.  Its body unpacks
`category_pk, error_code = resolve_category_string(api, category_string)`,
but the source variant of `resolve_category_string` returns a single
int-or-None, so after the resolver has run (creating categories as a side
effect) the unpacking raises `TypeError`, which no handler catches. -/
def processRowsSrc : Nat → List Payload → St → PyOutcome × St
  | _, [], st => processRowsSrcDone st
  | i, row :: _, st =>
    if i ≥ 12 then processRowsSrcDone st
    else
      let category_string := fstrAt row "CATEGORY" ++ " / " ++ fstrAt row "TYPE"
      let (_, st') := resolve_category_string_src category_string st
      (.exn "TypeError: cannot unpack non-iterable int object", st')

/-- `source/utils/csv_processing.process_database_file(api, filename)` on an
already-parsed row list (`df.iterrows()` indexes from 0). -/
def process_database_file_src (rows : List Payload) (st : St) : PyOutcome × St :=
  processRowsSrc 0 rows st

/-- Total number of rows buffered by the shadow writer. -/
def writerRowsTotal (st : St) : Nat :=
  st.writer.partRows.length + st.writer.partparameterRows.length +
  st.writer.partrelatedRows.length + st.writer.manufacturerpartRows.length +
  st.writer.attachmentRows.length + st.writer.supplierpartRows.length

/-- Total number of create calls absorbed by the backing stores: every
create appends exactly one entity to the live store or one row to a shadow
writer buffer. -/
def createCount (st : St) : Nat := st.api.length + writerRowsTotal st

/-- `resolve_entity` called repeatedly with the same arguments, collecting
every call's result. -/
def resolveRun (k : EntityKind) (d : Payload) : Nat → St → List (Option Int) × St
  | 0, st => ([], st)
  | n + 1, st =>
    let r := resolve_entity k d st
    let rest := resolveRun k d n r.2
    (r.1 :: rest.1, rest.2)

/-- `CsvDbWriter.create` called repeatedly with the same arguments,
collecting every call's returned pk. -/
def writerRun (k : EntityKind) (d : Payload) : Nat → St → List (Option Int) × St
  | 0, st => ([], st)
  | n + 1, st =>
    let r := writerCreate k d st
    let rest := writerRun k d n r.2.2
    (r.1 :: rest.1, rest.2)

/-- The `ID_UPPER_LIMIT` dict key used by `CsvDbWriter.create` for each
supported kind. -/
def writerKindKey : EntityKind → Option String
  | .Part => some "part"
  | .Parameter => some "partparameter"
  | .PartRelated => some "partrelated"
  | .ManufacturerPart => some "manufacturerpart"
  | .Attachment => some "attachment"
  | .SupplierPart => some "supplierpart"
  | _ => Option.none

/-- The shadow-writer buffer holding a kind's rows. -/
def writerRowsOf (k : EntityKind) (st : St) : List Payload :=
  match k with
  | .Part => st.writer.partRows
  | .Parameter => st.writer.partparameterRows
  | .PartRelated => st.writer.partrelatedRows
  | .ManufacturerPart => st.writer.manufacturerpartRows
  | .Attachment => st.writer.attachmentRows
  | .SupplierPart => st.writer.supplierpartRows
  | _ => []

/-- The flat-file column list for a kind's output file. -/
def writerColumnsOf (k : EntityKind) : List String :=
  match k with
  | .Part => DB_PART_COLUMNS
  | .Parameter => DB_PARTPARAMETER_COLUMNS
  | .PartRelated => DB_PARTRELATED_COLUMNS
  | .ManufacturerPart => DB_MANUFACTURERPART_COLUMNS
  | .Attachment => DB_ATTACHMENT_COLUMNS
  | .SupplierPart => DB_SUPPLIERPART_COLUMNS
  | _ => []

/-- The output file name for a kind, as in `write_all_db_csv`. -/
def writerFileOf (k : EntityKind) : String :=
  match k with
  | .Part => "part_part.csv"
  | .Parameter => "part_partparameter.csv"
  | .PartRelated => "part_partrelated.csv"
  | .ManufacturerPart => "company_manufacturerpart.csv"
  | .Attachment => "inventree_attachment.csv"
  | .SupplierPart => "part_supplierpart.csv"
  | _ => ""

/-- The kinds `CsvDbWriter.create` supports (the branches of its
`entity_type.__name__` dispatch). -/
def writerSupportedKinds : List EntityKind :=
  [.Part, .Parameter, .PartRelated, .ManufacturerPart, .Attachment, .SupplierPart]

/-- A state in shadow-writer mode with the id counters already seeded. -/
def shadowSt : St :=
  { initSt with writer := { writerInit with active := true, countersFetched := true } }

/-- A Part payload with all three identifier fields present. -/
def partPayload : Payload :=
  [("name", .str "R1"), ("category", .int 5), ("revision", .str "0")]

/-- A Part payload differing from `partPayload` in the identifier field
`name`. -/
def partPayload2 : Payload :=
  [("name", .str "R2"), ("category", .int 5), ("revision", .str "0")]

/-- State for the pending-relation scenario: ledger `[(1,"X"), (2,"Y")]`,
where no part named `"X"` was ever created and the Part cache maps the
composite key whose name component is `"Y"` to pk 7. -/
def relSt : St :=
  { initSt with
      pendingRelations := [(1, "X"), (2, "Y")]
      ecache := aset initSt.ecache (.cls .Part) [([.str "Y", .str "7", .str "0"], 7)] }

/-- State for the populate scenario: the store holds one Part, and fetching
the Company collection raises. -/
def popSt : St :=
  { initSt with api := [⟨.Part, 1, [("name", .str "P")]⟩], apiFail := [.Company] }

/-- A Part payload whose `category` identifier field is absent. -/
def partNoCat : Payload := [("name", .str "a"), ("revision", .str "b")]

/-- A Part payload whose `revision` identifier field is absent; its
composite key collides with `partNoCat`. -/
def partNoRev : Payload := [("name", .str "a"), ("category", .str "b")]

/-- One fully-populated CSV row of the ingestion pipeline. -/
def mkRow (n : String) : Payload :=
  [("CATEGORY", .str "Cat"), ("TYPE", .str "res"), ("NAME", .str n),
   ("DESCRIPTION", .str "d"), ("REVISION", .str "0"), ("NOTES", .str ""),
   ("MINIMUM_STOCK", .str "0"), ("DESIGNATOR [str]", .str "R"),
   ("RELATEDPARTS", .nan), ("DATASHEET_LINK", .nan)]

/-- Six valid CSV rows with distinct part names. -/
def sixRows : List Payload :=
  [mkRow "A", mkRow "B", mkRow "C", mkRow "D", mkRow "E", mkRow "F"]

section AssocLemmas

variable {α : Type} {β : Type} [BEq α] [LawfulBEq α]

theorem aget_cons (p : α × β) (m : List (α × β)) (k : α) :
    aget (p :: m) k = if p.1 == k then some p.2 else aget m k := by
  by_cases h : (p.1 == k) = true
  · simp [aget, List.find?_cons_of_pos _ h, h]
  · simp [aget, List.find?_cons_of_neg _ h, h]

theorem aget_append_left (m1 m2 : List (α × β)) (k : α) {v : β}
    (h : aget m1 k = some v) : aget (m1 ++ m2) k = some v := by
  induction m1 with
  | nil => simp [aget] at h
  | cons p t ih =>
    rw [List.cons_append, aget_cons] at *
    by_cases hp : (p.1 == k) = true
    · simpa [hp] using h
    · rw [if_neg hp] at h ⊢
      exact ih h

theorem aget_append_right (m1 m2 : List (α × β)) (k : α)
    (h : aget m1 k = Option.none) : aget (m1 ++ m2) k = aget m2 k := by
  induction m1 with
  | nil => rfl
  | cons p t ih =>
    rw [List.cons_append, aget_cons] at *
    by_cases hp : (p.1 == k) = true
    · simp [hp] at h
    · rw [if_neg hp] at h ⊢
      exact ih h

theorem aget_map_overwrite (m : List (α × β)) (k : α) (v : β)
    (h : m.any (fun p => p.1 == k) = true) :
    aget (m.map (fun p => if p.1 == k then (k, v) else p)) k = some v := by
  induction m with
  | nil => simp at h
  | cons p t ih =>
    rw [List.map_cons]
    by_cases hp : (p.1 == k) = true
    · rw [if_pos hp, aget_cons]
      simp
    · rw [if_neg hp, aget_cons, if_neg hp]
      exact ih (by simpa [List.any_cons, hp] using h)

theorem aget_map_overwrite_ne (m : List (α × β)) (k k2 : α) (v : β)
    (hne : (k == k2) = false) :
    aget (m.map (fun p => if p.1 == k then (k, v) else p)) k2 = aget m k2 := by
  induction m with
  | nil => rfl
  | cons p t ih =>
    rw [List.map_cons]
    by_cases hp : (p.1 == k) = true
    · have h2 : (p.1 == k2) = false := by rw [eq_of_beq hp]; exact hne
      rw [if_pos hp, aget_cons, aget_cons, h2, hne]
      simpa using ih
    · rw [if_neg hp, aget_cons, aget_cons]
      by_cases h3 : (p.1 == k2) = true
      · simp [h3]
      · simp only [h3, if_false, Bool.false_eq_true]
        exact ih

theorem aget_eq_none_of_not_any (m : List (α × β)) (k : α)
    (h : ¬ m.any (fun p => p.1 == k) = true) :
    aget m k = Option.none := by
  simp only [aget, Option.map_eq_none']
  rw [List.find?_eq_none]
  intro x hx
  simp only [List.any_eq_true, not_exists] at h
  intro hc
  exact (h x) ⟨hx, hc⟩

theorem aget_aset_self (m : List (α × β)) (k : α) (v : β) :
    aget (aset m k v) k = some v := by
  unfold aset
  split
  next h => exact aget_map_overwrite m k v h
  next h =>
    rw [aget_append_right _ _ _ (aget_eq_none_of_not_any m k h), aget_cons]
    simp

theorem aget_aset_ne (m : List (α × β)) (k k2 : α) (v : β)
    (hne : (k == k2) = false) :
    aget (aset m k v) k2 = aget m k2 := by
  unfold aset
  split
  next h => exact aget_map_overwrite_ne m k k2 v hne
  next h =>
    cases hg : aget m k2 with
    | some w => rw [aget_append_left _ _ _ hg]
    | none =>
      rw [aget_append_right _ _ _ hg, aget_cons]
      simp [hne, aget]

theorem mem_aset (m : List (α × β)) (k : α) (v : β) (p : α × β)
    (hp : p ∈ aset m k v) : p ∈ m ∨ p = (k, v) := by
  unfold aset at hp
  split at hp
  · obtain ⟨q, hq, hq2⟩ := List.mem_map.mp hp
    by_cases h : (q.1 == k) = true
    · right
      rw [← hq2, if_pos h]
    · left
      rw [← hq2, if_neg h]
      exact hq
  · rcases List.mem_append.mp hp with h | h
    · left; exact h
    · right; simpa using h

theorem aget_foldl_aset {γ : Type} (f : γ → α) (g : γ → β) (l : List γ)
    (m : List (α × β)) (k : α) (h : ∀ x ∈ l, (f x == k) = false) :
    aget (l.foldl (fun acc x => aset acc (f x) (g x)) m) k = aget m k := by
  induction l generalizing m with
  | nil => rfl
  | cons x t ih =>
    rw [List.foldl_cons]
    rw [ih _ (fun y hy => h y (List.mem_cons_of_mem _ hy))]
    exact aget_aset_ne _ _ _ _ (h x (List.mem_cons_self _ _))

theorem mem_foldl_aset {γ : Type} (f : γ → α) (g : γ → β) (l : List γ)
    (m : List (α × β)) (p : α × β)
    (hp : p ∈ l.foldl (fun acc x => aset acc (f x) (g x)) m) :
    p ∈ m ∨ ∃ x ∈ l, p.1 = f x := by
  induction l generalizing m with
  | nil => left; exact hp
  | cons x t ih =>
    rw [List.foldl_cons] at hp
    rcases ih _ hp with h | ⟨y, hy, h⟩
    · rcases mem_aset _ _ _ _ h with h2 | h2
      · left; exact h2
      · right
        exact ⟨x, List.mem_cons_self _ _, by rw [h2]⟩
    · right
      exact ⟨y, List.mem_cons_of_mem _ hy, h⟩

end AssocLemmas

theorem lut_ne_empty (k : EntityKind) : (IDENTIFIER_LUT k).isEmpty = false := by
  cases k <;> rfl

theorem cacheOf_set (st : St) (m : List (EntityKind × RMap)) (k : EntityKind) (c : RMap) :
    cacheOf { st with caches := aset m k c } k = c := by
  simp [cacheOf, aget_aset_self]

/-- A cache hit returns the cached pk and leaves the state untouched. -/
theorem resolve_entity_hit (k : EntityKind) (d : Payload) (st : St) {pk : Int}
    (h : aget (cacheOf st k) (compositeKey k d) = some pk) :
    resolve_entity k d st = (some pk, st) := by
  simp only [resolve_entity, lut_ne_empty, Bool.false_eq_true, if_false, h]

/-- In live-API mode a successful resolve leaves the resolved key in the
kind's cache. -/
theorem resolve_entity_cache_after (k : EntityKind) (d : Payload) (st : St) {pk : Int}
    (hw : st.writer.active = false)
    (h : (resolve_entity k d st).1 = some pk) :
    aget (cacheOf (resolve_entity k d st).2 k) (compositeKey k d) = some pk := by
  cases h1 : aget (cacheOf st k) (compositeKey k d) with
  | some pk' =>
    simp only [resolve_entity, lut_ne_empty, Bool.false_eq_true, if_false, h1] at h ⊢
    exact h
  | none =>
    by_cases h2 : st.apiFail.contains k = true
    · simp only [resolve_entity, lut_ne_empty, Bool.false_eq_true, if_false, h1, h2,
        if_true] at h
      simp at h
    · simp only [Bool.not_eq_true] at h2
      cases h3 : aget (updateMap (cacheOf st k)
          (entityDictOf k (st.api.filter (·.kind == k)))) (compositeKey k d) with
      | some pk' =>
        simp only [resolve_entity, lut_ne_empty, Bool.false_eq_true, if_false, h1, h2,
          h3] at h ⊢
        rw [cacheOf_set, h3]
        exact h
      | none =>
        simp only [resolve_entity, lut_ne_empty, Bool.false_eq_true, if_false, h1, h2,
          h3, hw, apiCreate] at h ⊢
        simp only [cacheOf, aget_aset_self, Option.getD_some]
        exact h

/-- In live-API mode with a working fetch, `resolve_entity` always returns a
pk: there is no failure path for missing identifier payload fields. -/
theorem resolve_entity_isSome (k : EntityKind) (d : Payload) (st : St)
    (hw : st.writer.active = false) (hf : st.apiFail.contains k = false) :
    (resolve_entity k d st).1.isSome = true := by
  have hfm : ¬ (k ∈ st.apiFail) := by simpa using hf
  cases h1 : aget (cacheOf st k) (compositeKey k d) with
  | some pk' => simp [resolve_entity, lut_ne_empty, h1]
  | none =>
    cases h3 : aget (updateMap (cacheOf st k)
        (entityDictOf k (st.api.filter (·.kind == k)))) (compositeKey k d) with
    | some pk' => simp [resolve_entity, lut_ne_empty, h1, hf, hfm, h3]
    | none => simp [resolve_entity, lut_ne_empty, h1, hf, hfm, h3, hw, apiCreate]

/-- In live-API mode `resolve_entity` never touches the writer state or the
failure set. -/
theorem resolve_entity_frame (k : EntityKind) (d : Payload) (st : St)
    (hw : st.writer.active = false) :
    (resolve_entity k d st).2.writer = st.writer ∧
    (resolve_entity k d st).2.apiFail = st.apiFail := by
  cases h1 : aget (cacheOf st k) (compositeKey k d) with
  | some pk' => simp [resolve_entity, lut_ne_empty, h1]
  | none =>
    by_cases h2 : st.apiFail.contains k = true
    · have hm : k ∈ st.apiFail := by simpa using h2
      simp [resolve_entity, lut_ne_empty, h1, h2, hm]
    · simp only [Bool.not_eq_true] at h2
      have hfm : ¬ (k ∈ st.apiFail) := by simpa using h2
      cases h3 : aget (updateMap (cacheOf st k)
          (entityDictOf k (st.api.filter (·.kind == k)))) (compositeKey k d) with
      | some pk' => simp [resolve_entity, lut_ne_empty, h1, h2, hfm, h3]
      | none => simp [resolve_entity, lut_ne_empty, h1, h2, hfm, h3, hw, apiCreate]

/-- The create branch of `resolve_entity` in live-API mode: with the key
absent from the cache and no stored entity of the kind carrying the key, the
resolver creates through the live API, returns the store's next pk, and
records it in the kind's cache. -/
theorem resolve_entity_creates (k : EntityKind) (d : Payload) (st : St)
    (hw : st.writer.active = false) (hf : st.apiFail.contains k = false)
    (hc : aget (cacheOf st k) (compositeKey k d) = Option.none)
    (hs : ∀ e ∈ st.api, e.kind = k → (entityKeyOf k e == compositeKey k d) = false) :
    resolve_entity k d st =
      (some st.apiNextPk,
       { st with
           api := st.api ++ [⟨k, st.apiNextPk, d⟩]
           apiNextPk := st.apiNextPk + 1
           caches := aset
             (aset st.caches k (updateMap (cacheOf st k)
               (entityDictOf k (st.api.filter (·.kind == k))))) k
             (aset (updateMap (cacheOf st k)
                (entityDictOf k (st.api.filter (·.kind == k))))
               (compositeKey k d) st.apiNextPk) }) := by
  have hdict : aget (updateMap (cacheOf st k)
      (entityDictOf k (st.api.filter (·.kind == k)))) (compositeKey k d) = Option.none := by
    unfold updateMap
    rw [aget_foldl_aset]
    · exact hc
    · intro p hp
      rcases mem_foldl_aset (f := entityKeyOf k) (g := ApiEntity.pk) _ _ _ hp with h0 | ⟨e, he, h1⟩
      · simp at h0
      · rw [h1]
        rcases List.mem_filter.mp he with ⟨he1, he2⟩
        exact hs e he1 (by simpa using he2)
  simp only [resolve_entity, lut_ne_empty, Bool.false_eq_true, if_false, hc, hf, hdict,
    hw, apiCreate]

theorem pget_isSome_eq_pmem (d : Payload) (f : String) :
    (pget d f).isSome = pmem d f := by
  rw [Bool.eq_iff_iff]
  simp [pget, pmem, List.find?_isSome, List.any_eq_true]

/-- The composite key collects exactly the stringified values of the
identifier fields present in the payload. -/
theorem compositeKey_eq_filter (k : EntityKind) (d : Payload) :
    compositeKey k d =
      ((IDENTIFIER_LUT k).filter (fun f => pmem d f)).map
        (fun f => pyStr ((pget d f).getD .none)) := by
  unfold compositeKey
  induction IDENTIFIER_LUT k with
  | nil => rfl
  | cons f t ih =>
    rw [List.filterMap_cons, List.filter_cons]
    cases hf : pget d f with
    | some v =>
      have hm : pmem d f = true := by
        rw [← pget_isSome_eq_pmem, hf]
        rfl
      simp [hm, hf, ih]
    | none =>
      have hm : pmem d f = false := by
        rw [← pget_isSome_eq_pmem, hf]
        rfl
      simp [hm, hf, ih]

/-- Payloads agreeing on every identifier field have the same composite key. -/
theorem compositeKey_congr (k : EntityKind) (d1 d2 : Payload)
    (h : ∀ f ∈ IDENTIFIER_LUT k, pget d1 f = pget d2 f) :
    compositeKey k d1 = compositeKey k d2 := by
  unfold compositeKey
  exact List.filterMap_congr (fun f hf => by rw [h f hf])

/-- When every identifier field is present in the creation payload, the key
under which a later fetch caches the created entity coincides with the
composite key the resolver used. -/
theorem map_getD_eq_filterMap (d : Payload) :
    ∀ l : List String, (∀ f ∈ l, pmem d f = true) →
      l.map (fun f => pyStr ((pget d f).getD .none)) =
        l.filterMap (fun f => (pget d f).map pyStr)
  | [], _ => rfl
  | f :: t, h => by
    rw [List.map_cons, List.filterMap_cons]
    have hm : pmem d f = true := h f (List.mem_cons_self _ _)
    rw [← pget_isSome_eq_pmem] at hm
    cases hf : pget d f with
    | some v => simp [hf, map_getD_eq_filterMap d t (fun g hg => h g (List.mem_cons_of_mem _ hg))]
    | none => rw [hf] at hm; simp at hm

/-- When every identifier field is present in the creation payload, the key
under which a later fetch caches the created entity coincides with the
composite key the resolver used. -/
theorem entityKeyOf_create (k : EntityKind) (pk : Int) (d : Payload)
    (h : ∀ f ∈ IDENTIFIER_LUT k, pmem d f = true) :
    entityKeyOf k ⟨k, pk, d⟩ = compositeKey k d := by
  unfold entityKeyOf compositeKey
  exact map_getD_eq_filterMap d (IDENTIFIER_LUT k) h

/-- A successful resolve caches its key, so a repeat resolve of any payload
with the same composite key is a pure cache hit: same pk, unchanged state. -/
theorem resolve_entity_fix (k : EntityKind) (d d2 : Payload) (st : St) {pk : Int}
    (hw : st.writer.active = false)
    (hkey : compositeKey k d2 = compositeKey k d)
    (h : (resolve_entity k d st).1 = some pk) :
    resolve_entity k d2 (resolve_entity k d st).2 = (some pk, (resolve_entity k d st).2) := by
  apply resolve_entity_hit
  rw [hkey]
  exact resolve_entity_cache_after k d st hw h

/-- Repeated resolution from a state whose cache already holds the key is a
sequence of identical hits. -/
theorem resolveRun_fix (k : EntityKind) (d : Payload) (st : St) {pk : Int} (n : Nat)
    (hhit : aget (cacheOf st k) (compositeKey k d) = some pk) :
    resolveRun k d n st = (List.replicate n (some pk), st) := by
  induction n with
  | zero => rfl
  | succ m ih =>
    rw [resolveRun]
    simp [resolve_entity_hit k d st hhit, ih, List.replicate_succ]

/-- C1, counterexample: with the shadow writer active, resolving the same
Part payload twice returns two different pks (1 then 2) and performs two
creates, because the writer branch of `resolve_entity` never records the
new pk in the cache.  This contradicts the claim's "same pk on every call,
exactly one create ... regardless of which backing-store mode is active". -/
theorem C1_counterexample :
    (resolve_entity .Part partPayload shadowSt).1 = some 1 ∧
    (resolve_entity .Part partPayload (resolve_entity .Part partPayload shadowSt).2).1 = some 2 ∧
    createCount shadowSt = 0 ∧
    createCount (resolve_entity .Part partPayload (resolve_entity .Part partPayload shadowSt).2).2 = 2 := by
  decide

/-- C1 (amended): with the live-API backing store active (shadow writer
inactive), resolving a payload whose composite key is absent from the cache
and from the store N+1 times in sequence yields the same pk on every call,
and exactly one create is made across all calls. -/
theorem C1_resolve_idempotent_live_api (k : EntityKind) (d : Payload) (st : St) (n : Nat)
    (hw : st.writer.active = false)
    (hf : st.apiFail.contains k = false)
    (hc : aget (cacheOf st k) (compositeKey k d) = Option.none)
    (hs : ∀ e ∈ st.api, e.kind = k → (entityKeyOf k e == compositeKey k d) = false) :
    (resolveRun k d (n + 1) st).1 = List.replicate (n + 1) (some st.apiNextPk) ∧
    createCount (resolveRun k d (n + 1) st).2 = createCount st + 1 := by
  have hcr := resolve_entity_creates k d st hw hf hc hs
  have hhit : aget (cacheOf (resolve_entity k d st).2 k) (compositeKey k d) =
      some st.apiNextPk := by
    rw [hcr]
    simp only [cacheOf, aget_aset_self, Option.getD_some]
  have hfix := resolveRun_fix k d (resolve_entity k d st).2 n hhit
  simp only [resolveRun, hfix]
  constructor
  · rw [List.replicate_succ]
    simp [hcr]
  · rw [hcr]
    simp only [createCount, writerRowsTotal, List.length_append, List.length_cons,
      List.length_nil]
    omega

/-- Witness for C1's amended theorem: three resolves of the same Company
payload from the initial state all return pk 1 with exactly one create. -/
theorem C1_resolve_idempotent_live_api_witness :
    (resolveRun .Company [("name", PyVal.str "Yageo")] 3 initSt).1 =
      List.replicate 3 (some 1) ∧
    createCount (resolveRun .Company [("name", PyVal.str "Yageo")] 3 initSt).2 = 1 := by
  have h := C1_resolve_idempotent_live_api .Company [("name", PyVal.str "Yageo")] initSt 2
    (by decide) (by decide) (by decide) (by intro e he _; simp [initSt] at he)
  exact h

/-- C2, counterexample: the Company payload `{}` is missing the identifier
field `name`, yet `resolve_entity` does not fail: it proceeds with the empty
composite key and creates an entity (pk 1).  The claim's
`MissingIdentifierFields` failure does not exist in the code. -/
theorem C2_counterexample :
    (resolve_entity .Company [] initSt).1 = some 1 ∧
    compositeKey .Company [] = [] := by
  decide

/-- C2 (amended): identifier fields absent from the payload are silently
skipped: the composite key is computed from the present identifier fields
only, and in live-API mode with a working fetch the resolve still returns a
pk rather than failing. -/
theorem C2_missing_identifier_fields_are_skipped (k : EntityKind) (d : Payload) (st : St)
    (hw : st.writer.active = false) (hf : st.apiFail.contains k = false) :
    (resolve_entity k d st).1.isSome = true ∧
    compositeKey k d =
      ((IDENTIFIER_LUT k).filter (fun f => pmem d f)).map
        (fun f => pyStr ((pget d f).getD .none)) :=
  ⟨resolve_entity_isSome k d st hw hf, compositeKey_eq_filter k d⟩

/-- Witness for C2's amended theorem at the empty Company payload. -/
theorem C2_missing_identifier_fields_are_skipped_witness :
    (resolve_entity .Company [] initSt).1.isSome = true ∧
    compositeKey .Company [] =
      ((IDENTIFIER_LUT .Company).filter (fun f => pmem [] f)).map
        (fun f => pyStr ((pget [] f).getD .none)) :=
  C2_missing_identifier_fields_are_skipped .Company [] initSt (by decide) (by decide)

/-- C3: from a state with no categories, resolving `"A/B/C"` creates exactly
the three categories A (parent null, structural), B (parent A.pk,
structural), C (parent B.pk, not structural) and returns the leaf pk; a
second resolve of `"A/B/C"` creates nothing new and returns the same pk. -/
theorem C3_category_path_roundtrip :
    (resolve_category_string "A/B/C" initSt).1 = (some 3, ErrorCodes.SUCCESS) ∧
    (resolve_category_string "A/B/C" initSt).2.api =
      [⟨.PartCategory, 1, [("name", .str "A"), ("structural", .bool true), ("parent", .none)]⟩,
       ⟨.PartCategory, 2, [("name", .str "B"), ("structural", .bool true), ("parent", .int 1)]⟩,
       ⟨.PartCategory, 3, [("name", .str "C"), ("structural", .bool false), ("parent", .int 2)]⟩] ∧
    (resolve_category_string "A/B/C" (resolve_category_string "A/B/C" initSt).2).1 =
      (some 3, ErrorCodes.SUCCESS) ∧
    (resolve_category_string "A/B/C" (resolve_category_string "A/B/C" initSt).2).2.api =
      (resolve_category_string "A/B/C" initSt).2.api := by
  decide

/-- C4: with pending relations `(1,"X")` and `(2,"Y")` recorded, where no
part named `"X"` exists and `"Y"` resolves to pk 7 through the Part cache,
`resolve_pending_relations` returns success, creates exactly one PartRelated
entity for `(2, 7)` (keyed `("2","7")`), skips the `"X"` relation, and
leaves the ledger empty. -/
theorem C4_pending_relation_resolution :
    (resolve_pending_relations relSt).1 = ErrorCodes.SUCCESS ∧
    (resolve_pending_relations relSt).2.pendingRelations = [] ∧
    (resolve_pending_relations relSt).2.api =
      [⟨.PartRelated, 1, [("part_1", .int 2), ("part_2", .int 7)]⟩] ∧
    compositeKey .PartRelated [("part_1", .int 2), ("part_2", .int 7)] = ["2", "7"] := by
  decide

set_option maxHeartbeats 1000000 in
/-- One `CsvDbWriter.create` call for a supported kind: it returns the
incremented counter, reports success, appends exactly one row to the kind's
buffer and leaves the counters-fetched flag set. -/
theorem writerCreate_step (k : EntityKind) (key : String) (d : Payload) (st : St)
    (hk : writerKindKey k = some key) (hcf : st.writer.countersFetched = true) :
    (writerCreate k d st).1 = some ((aget st.writer.idUpper key).getD 0 + 1) ∧
    (writerCreate k d st).2.1 = ErrorCodes.SUCCESS ∧
    (∃ row, writerRowsOf k (writerCreate k d st).2.2 = writerRowsOf k st ++ [row]) ∧
    (writerCreate k d st).2.2.writer.idUpper =
      aset st.writer.idUpper key ((aget st.writer.idUpper key).getD 0 + 1) ∧
    (writerCreate k d st).2.2.writer.countersFetched = true := by
  cases k <;> simp_all [writerKindKey, writerCreate, writerAddPartRow,
    writerAddPartparameter, writerAddPartrelated, writerAddManufacturerpart,
    writerAddAttachment, writerAddSupplierpart, getNextId, writerRowsOf]

/-- N consecutive `CsvDbWriter.create` calls for a supported kind return the
consecutive counter values and grow the kind's buffer by N rows. -/
theorem writerRun_spec (k : EntityKind) (key : String) (d : Payload) (n : Nat) :
    ∀ (st : St) (M : Int), writerKindKey k = some key →
      st.writer.countersFetched = true →
      aget st.writer.idUpper key = some M →
      (writerRun k d n st).1 = (List.range n).map (fun i : Nat => some (M + 1 + (i : Int))) ∧
      (writerRowsOf k (writerRun k d n st).2).length = (writerRowsOf k st).length + n := by
  induction n with
  | zero =>
    intro st M hk hcf hM
    simp [writerRun]
  | succ m ih =>
    intro st M hk hcf hM
    obtain ⟨h1, h2, ⟨row, h3⟩, h4, h5⟩ := writerCreate_step k key d st hk hcf
    have hM' : aget (writerCreate k d st).2.2.writer.idUpper key = some (M + 1) := by
      rw [h4, hM]
      simp [aget_aset_self]
    obtain ⟨ih1, ih2⟩ := ih (writerCreate k d st).2.2 (M + 1) hk h5 hM'
    constructor
    · simp only [writerRun, ih1, h1, hM, Option.getD_some, List.range_succ_eq_map,
        List.map_cons, List.map_map]
      congr 1
      · norm_num
      · apply List.map_congr_left
        intro i _
        simp only [Function.comp]
        congr 1
        push_cast
        ring
    · simp only [writerRun, ih2, h3, List.length_append, List.length_cons,
        List.length_nil]
      omega

/-- C5: with the shadow writer's id counter for a supported kind seeded at
M, N consecutive `create` calls for that kind return exactly M+1, ..., M+N
(no gaps or repeats), the kind's buffer gains exactly N rows, and the flush
of that kind's output file writes exactly those N rows (no file at all when
N = 0). -/
theorem C5_shadow_writer_pk_monotonic (k : EntityKind) (key : String) (d : Payload)
    (st : St) (M : Int) (N : Nat)
    (hk : writerKindKey k = some key)
    (hcf : st.writer.countersFetched = true)
    (hM : aget st.writer.idUpper key = some M)
    (h0 : writerRowsOf k st = []) :
    (writerRun k d N st).1 = (List.range N).map (fun i : Nat => some (M + 1 + (i : Int))) ∧
    (writerRowsOf k (writerRun k d N st).2).length = N ∧
    (writeDfToCsv (writerRowsOf k (writerRun k d N st).2) (writerColumnsOf k)
        (writerFileOf k)).map (fun f => f.2.length) =
      if N = 0 then Option.none else some N := by
  obtain ⟨h1, h2⟩ := writerRun_spec k key d N st M hk hcf hM
  have hlen : (writerRowsOf k (writerRun k d N st).2).length = N := by
    rw [h2, h0]
    simp
  refine ⟨h1, hlen, ?_⟩
  unfold writeDfToCsv
  by_cases he : (writerRowsOf k (writerRun k d N st).2).isEmpty = true
  · have hN : N = 0 := by
      rw [← hlen]
      simpa [List.isEmpty_iff, List.length_eq_zero] using he
    subst hN
    have h00 : writerRowsOf k (writerRun k d 0 st).2 = [] := h0
    simp [h00]
  · have hN : ¬ N = 0 := by
      intro hN0
      apply he
      rw [List.isEmpty_iff, ← List.length_eq_zero, hlen, hN0]
    simp [he, hN, hlen]

/-- Witness for C5 at kind Part, counter seeded 0, three creates. -/
theorem C5_shadow_writer_pk_monotonic_witness :
    (writerRun .Part [("name", PyVal.str "p")] 3 shadowSt).1 =
      (List.range 3).map (fun i : Nat => some ((0 : Int) + 1 + (i : Int))) ∧
    (writerRowsOf .Part (writerRun .Part [("name", PyVal.str "p")] 3 shadowSt).2).length = 3 ∧
    (writeDfToCsv (writerRowsOf .Part (writerRun .Part [("name", PyVal.str "p")] 3 shadowSt).2)
        (writerColumnsOf .Part) (writerFileOf .Part)).map (fun f => f.2.length) =
      if 3 = 0 then Option.none else some 3 :=
  C5_shadow_writer_pk_monotonic .Part "part" [("name", PyVal.str "p")] shadowSt 0 3
    (by decide) (by decide) (by decide) (by decide)

/-- C6, counterexample: populating `[Company, Part]` where the Company fetch
raises leaves the Part cache untouched (still empty) even though the store
holds a Part and the Part fetch works — populating `[Part]` alone from the
same state caches it.  The claim's "the remaining kinds are still populated"
is false: the `try` wraps the whole kind loop, so the first error aborts the
rest. -/
theorem C6_counterexample :
    aget (ecPopulate [.Company, .Part] 500 popSt).ecache (ECKey.cls .Part) = some [] ∧
    aget (ecPopulate [.Part] 500 popSt).ecache (ECKey.cls .Part) =
      some [([.str "P", .none, .none], 1)] ∧
    popSt.apiFail.contains .Part = false := by
  decide

/-- C6 (amended): populating a kind with zero backing-store instances leaves
that kind's cache as a present, empty map; a fetch error while populating
one kind is caught at the populate level (the call itself returns), but it
aborts the kind loop: the failing kind's map is left reset to empty and the
kinds after it are not touched at all. -/
theorem C6_populate_empty_and_error (st : St) (k k1 k2 : EntityKind) (chunk : Nat)
    (hf : st.apiFail.contains k = false)
    (hemp : st.api.filter (·.kind == k) = [])
    (hf1 : st.apiFail.contains k1 = true) :
    aget (ecPopulate [k] chunk st).ecache (ECKey.cls k) = some [] ∧
    (ecPopulate [k1, k2] chunk st).ecache = aset st.ecache (ECKey.cls k1) [] := by
  constructor
  · have hfm : ¬ (k ∈ st.apiFail) := by simpa using hf
    have hloop : populateLoop k ([] : List ApiEntity) chunk 0 [] = [] := by
      unfold populateLoop populateLoopF
      simp
    simp [ecPopulate, ecPopulateGo, ecPopulateKind, hf, hfm, hemp, hloop, aget_aset_self]
  · have hm1 : k1 ∈ st.apiFail := by simpa using hf1
    simp [ecPopulate, ecPopulateGo, ecPopulateKind, hf1, hm1]

/-- Witness for C6's amended theorem on the concrete populate scenario. -/
theorem C6_populate_empty_and_error_witness :
    aget (ecPopulate [.StockItem] 500 popSt).ecache (ECKey.cls .StockItem) = some [] ∧
    (ecPopulate [.Company, .Part] 500 popSt).ecache =
      aset popSt.ecache (ECKey.cls .Company) [] :=
  C6_populate_empty_and_error popSt .StockItem .Company .Part 500
    (by decide) (by decide) (by decide)

/-- Rebuilding a kind's cache from fetched entities does not invent an entry
for a key that no fetched entity carries. -/
theorem aget_updateMap_dict_none (k : EntityKind) (ents : List ApiEntity) (m : RMap)
    (key : List String)
    (hm : aget m key = Option.none)
    (hs : ∀ e ∈ ents, (entityKeyOf k e == key) = false) :
    aget (updateMap m (entityDictOf k ents)) key = Option.none := by
  unfold updateMap
  rw [aget_foldl_aset]
  · exact hm
  · intro p hp
    rcases mem_foldl_aset (f := entityKeyOf k) (g := ApiEntity.pk) _ _ _ hp with h0 | ⟨e, he, h1⟩
    · simp at h0
    · rw [h1]
      exact hs e he

/-- C7, counterexample: `partNoCat` and `partNoRev` differ in the identifier
fields `category` and `revision` (each present in only one payload), yet both
have the composite key `["a","b"]` because absent identifier fields are
skipped, so resolving them yields the same pk — refuting "two payloads
differing in any identifier field yield two distinct pks". -/
theorem C7_counterexample :
    pget partNoCat "category" ≠ pget partNoRev "category" ∧
    pget partNoCat "revision" ≠ pget partNoRev "revision" ∧
    compositeKey .Part partNoCat = ["a", "b"] ∧
    compositeKey .Part partNoRev = ["a", "b"] ∧
    (resolve_entity .Part partNoCat initSt).1 = some 1 ∧
    (resolve_entity .Part partNoRev (resolve_entity .Part partNoCat initSt).2).1 = some 1 := by
  decide

/-- C7 (amended): in live-API mode, two payloads of one kind agreeing on
every identifier field resolve to the same pk (the second resolve is a pure
cache hit, so non-identifier differences are ignored), and two payloads with
all identifier fields present whose composite keys differ, both fresh in the
cache and the store, resolve to two distinct pks. -/
theorem C7_key_isolation :
    (∀ (k : EntityKind) (d1 d2 : Payload) (st : St) (pk : Int),
        st.writer.active = false →
        (∀ f ∈ IDENTIFIER_LUT k, pget d1 f = pget d2 f) →
        (resolve_entity k d1 st).1 = some pk →
        resolve_entity k d2 (resolve_entity k d1 st).2 =
          (some pk, (resolve_entity k d1 st).2)) ∧
    (∀ (k : EntityKind) (d1 d2 : Payload) (st : St),
        st.writer.active = false →
        st.apiFail.contains k = false →
        aget (cacheOf st k) (compositeKey k d1) = Option.none →
        aget (cacheOf st k) (compositeKey k d2) = Option.none →
        (∀ e ∈ st.api, e.kind = k → (entityKeyOf k e == compositeKey k d1) = false) →
        (∀ e ∈ st.api, e.kind = k → (entityKeyOf k e == compositeKey k d2) = false) →
        (∀ f ∈ IDENTIFIER_LUT k, pmem d1 f = true) →
        compositeKey k d1 ≠ compositeKey k d2 →
        ∃ pk1 pk2, (resolve_entity k d1 st).1 = some pk1 ∧
          (resolve_entity k d2 (resolve_entity k d1 st).2).1 = some pk2 ∧
          pk1 ≠ pk2) := by
  constructor
  · intro k d1 d2 st pk hw hfield hres
    exact resolve_entity_fix k d1 d2 st hw
      (compositeKey_congr k d2 d1 (fun f hf => (hfield f hf).symm)) hres
  · intro k d1 d2 st hw hf hc1 hc2 hs1 hs2 hall1 hne
    have hcr1 := resolve_entity_creates k d1 st hw hf hc1 hs1
    have hkb : (compositeKey k d1 == compositeKey k d2) = false :=
      beq_eq_false_iff_ne.mpr hne
    have hX : aget (updateMap (cacheOf st k)
        (entityDictOf k (st.api.filter (·.kind == k)))) (compositeKey k d2) = Option.none := by
      apply aget_updateMap_dict_none
      · exact hc2
      · intro e he
        rcases List.mem_filter.mp he with ⟨he1, he2⟩
        exact hs2 e he1 (by simpa using he2)
    have hfr := resolve_entity_frame k d1 st hw
    have hw2 : (resolve_entity k d1 st).2.writer.active = false := by
      rw [hfr.1]
      exact hw
    have hf2 : (resolve_entity k d1 st).2.apiFail.contains k = false := by
      rw [hfr.2]
      exact hf
    have hcaches : (resolve_entity k d1 st).2.caches =
        aset (aset st.caches k (updateMap (cacheOf st k)
          (entityDictOf k (st.api.filter (·.kind == k))))) k
          (aset (updateMap (cacheOf st k)
            (entityDictOf k (st.api.filter (·.kind == k))))
            (compositeKey k d1) st.apiNextPk) := by
      rw [hcr1]
    have hapi : (resolve_entity k d1 st).2.api =
        st.api ++ [⟨k, st.apiNextPk, d1⟩] := by
      rw [hcr1]
    have hnext : (resolve_entity k d1 st).2.apiNextPk = st.apiNextPk + 1 := by
      rw [hcr1]
    have hc2' : aget (cacheOf (resolve_entity k d1 st).2 k) (compositeKey k d2) =
        Option.none := by
      simp only [cacheOf, hcaches, aget_aset_self, Option.getD_some]
      rw [aget_aset_ne _ _ _ _ hkb]
      exact hX
    have hs2' : ∀ e ∈ (resolve_entity k d1 st).2.api, e.kind = k →
        (entityKeyOf k e == compositeKey k d2) = false := by
      rw [hapi]
      intro e he hek
      rcases List.mem_append.mp he with he | he
      · exact hs2 e he hek
      · rw [List.mem_singleton] at he
        subst he
        rw [entityKeyOf_create k st.apiNextPk d1 hall1]
        exact hkb
    have hcr2 := resolve_entity_creates k d2 (resolve_entity k d1 st).2 hw2 hf2 hc2' hs2'
    refine ⟨st.apiNextPk, st.apiNextPk + 1, ?_, ?_, by omega⟩
    · rw [hcr1]
    · rw [hcr2, hnext]

/-- Witness for C7's amended theorem: a Company resolved twice with a
changed non-identifier field keeps pk 1; two Parts differing in `name`
get pks 1 and 2. -/
theorem C7_key_isolation_witness :
    (resolve_entity .Company [("name", PyVal.str "Acme"), ("note", PyVal.str "b")]
        (resolve_entity .Company [("name", PyVal.str "Acme"), ("note", PyVal.str "a")] initSt).2 =
      (some 1,
        (resolve_entity .Company [("name", PyVal.str "Acme"), ("note", PyVal.str "a")] initSt).2)) ∧
    (∃ pk1 pk2, (resolve_entity .Part partPayload initSt).1 = some pk1 ∧
      (resolve_entity .Part partPayload2 (resolve_entity .Part partPayload initSt).2).1 = some pk2 ∧
      pk1 ≠ pk2) := by
  constructor
  · exact C7_key_isolation.1 .Company [("name", PyVal.str "Acme"), ("note", PyVal.str "a")]
      [("name", PyVal.str "Acme"), ("note", PyVal.str "b")] initSt 1
      (by decide) (by decide) (by decide)
  · exact C7_key_isolation.2 .Part partPayload partPayload2 initSt
      (by decide) (by decide) (by decide) (by decide)
      (by decide) (by decide) (by decide) (by decide)

/-- In live-API mode with a working PartCategory fetch, the category walk
never fails: every level resolves, so the walk reports success. -/
theorem categoryWalk_success (levels : List String) :
    ∀ (parent : Option Int) (st : St),
      st.writer.active = false →
      st.apiFail.contains .PartCategory = false →
      (categoryWalk levels parent st).1.2 = ErrorCodes.SUCCESS := by
  induction levels with
  | nil =>
    intro parent st hw hf
    rfl
  | cons level rest ih =>
    intro parent st hw hf
    have hsome := resolve_entity_isSome .PartCategory
      [("name", PyVal.str level), ("structural", PyVal.bool (!rest.isEmpty)),
       ("parent", optPk parent)] st hw hf
    have hfr := resolve_entity_frame .PartCategory
      [("name", PyVal.str level), ("structural", PyVal.bool (!rest.isEmpty)),
       ("parent", optPk parent)] st hw
    rcases hre : resolve_entity .PartCategory
        [("name", PyVal.str level), ("structural", PyVal.bool (!rest.isEmpty)),
         ("parent", optPk parent)] st with ⟨r, st'⟩
    rw [hre] at hsome hfr
    cases r with
    | none => simp at hsome
    | some pk =>
      simp only [categoryWalk, hre]
      apply ih (some pk) st'
      · have h1 : st'.writer = st.writer := hfr.1
        rw [h1]
        exact hw
      · have h2 : st'.apiFail = st.apiFail := hfr.2
        rw [h2]
        exact hf

/-- C8, counterexample: the path `" / / "` does not fail — its whitespace
segments pass the (pre-trim) filter — so the resolver returns SUCCESS and
creates three categories whose names are all the empty string, exactly what
the claim says cannot happen. -/
theorem C8_counterexample :
    (resolve_category_string " / / " initSt).1 = (some 3, ErrorCodes.SUCCESS) ∧
    ErrorCodes.SUCCESS ≠ ErrorCodes.INVALID_DATA ∧
    ((resolve_category_string " / / " initSt).2.api.map (fun e => pget e.fields "name")) =
      [some (.str ""), some (.str ""), some (.str "")] := by
  decide

/-- C8 (amended): in live-API mode with a working fetch,
`resolve_category_string` fails with `INVALID_DATA` exactly when every raw
(untrimmed) slash-separated segment of the path is empty or lowercases to
`"nan"`; whitespace-only segments pass that filter and are then trimmed to
empty category names. -/
theorem C8_invalid_path_condition (s : String) (st : St)
    (hw : st.writer.active = false)
    (hf : st.apiFail.contains .PartCategory = false) :
    (resolve_category_string s st).1.2 = ErrorCodes.INVALID_DATA ↔
      ∀ l ∈ pySplit s '/', l = "" ∨ pyLower l = "nan" := by
  unfold resolve_category_string
  by_cases he : (categoryLevels s).isEmpty = true
  · simp only [he, if_true]
    constructor
    · intro _
      have hnil : ((pySplit s '/').filter
          (fun l => !(l == "") && !(pyLower l == "nan"))) = [] := by
        have h0 := he
        unfold categoryLevels at h0
        simpa [List.isEmpty_iff, List.map_eq_nil] using h0
      intro l hl
      have hdrop := List.filter_eq_nil.mp hnil l hl
      by_cases h1 : l = ""
      · left
        exact h1
      · right
        simp [h1] at hdrop
        simpa using hdrop
    · intro _
      trivial
  · simp only [Bool.not_eq_true] at he
    simp only [he, Bool.false_eq_true, if_false]
    rw [categoryWalk_success (categoryLevels s) Option.none st hw hf]
    constructor
    · intro h
      exact absurd h (by decide)
    · intro hall
      exfalso
      have : (categoryLevels s).isEmpty = true := by
        unfold categoryLevels
        simp only [List.isEmpty_iff, List.map_eq_nil]
        rw [List.filter_eq_nil]
        intro l hl
        rcases hall l hl with h | h
        · simp [h]
        · simp [h]
      rw [this] at he
      exact absurd he (by decide)

/-- Witness for C8's amended theorem at the path `"A"`. -/
theorem C8_invalid_path_condition_witness :
    (resolve_category_string "A" initSt).1.2 = ErrorCodes.INVALID_DATA ↔
      ∀ l ∈ pySplit "A" '/', l = "" ∨ pyLower l = "nan" :=
  C8_invalid_path_condition "A" initSt (by decide) (by decide)

/-- C9: the scripts ingestion pipeline only ever looks at the first 4 rows
of a file (`df.iloc[:4]`), and the source variant only at the first 12
(`if i >= 12: break`): processing any row list equals processing its
4- (resp. 12-) row prefix.  Concretely, six valid rows all of which succeed
yield SUCCESS with exactly 4 part rows buffered — rows 5 and 6 are silently
skipped. -/
theorem C9_row_prefix_limit :
    (∀ (rows : List Payload) (st : St),
        process_database_file rows st = process_database_file (rows.take 4) st) ∧
    (∀ (rows : List Payload) (st : St),
        process_database_file_src rows st = process_database_file_src (rows.take 12) st) ∧
    (process_database_file sixRows initSt).1 = ErrorCodes.SUCCESS ∧
    (process_database_file sixRows initSt).2.partCreationRows.length = 4 := by
  refine ⟨?_, ?_, ?_, ?_⟩
  · intro rows st
    unfold process_database_file
    rw [List.take_take]
    norm_num
  · intro rows st
    cases rows with
    | nil => rfl
    | cons r t => rfl
  · decide
  · decide

/-- `CsvDbWriter.create` on a kind outside its dispatch returns
`(None, ENTITY_CREATION_FAILED)` and leaves the state untouched (once the
counters are fetched). -/
theorem writerCreate_unsupported (k : EntityKind) (d : Payload) (st : St)
    (hk : k ∉ writerSupportedKinds) (hcf : st.writer.countersFetched = true) :
    writerCreate k d st = (Option.none, ErrorCodes.ENTITY_CREATION_FAILED, st) := by
  cases k <;> simp_all [writerSupportedKinds, writerCreate]

/-- C10: the shadow writer's `create` succeeds exactly for Part, Parameter,
PartRelated, ManufacturerPart, Attachment and SupplierPart; for any other
kind it fails with `ENTITY_CREATION_FAILED` without touching state, and in
shadow mode the resolver then falls back to the live API: the entity is
created in the live backing store (returning its pk) while the writer
buffers stay unchanged. -/
theorem C10_shadow_mode_kind_support :
    (∀ (k : EntityKind) (d : Payload) (st : St),
        st.writer.countersFetched = true →
        (((writerCreate k d st).1.isSome = true) ↔ k ∈ writerSupportedKinds)) ∧
    (∀ (k : EntityKind) (d : Payload) (st : St),
        st.writer.active = true →
        st.writer.countersFetched = true →
        k ∉ writerSupportedKinds →
        st.apiFail.contains k = false →
        aget (cacheOf st k) (compositeKey k d) = Option.none →
        (∀ e ∈ st.api, e.kind = k → (entityKeyOf k e == compositeKey k d) = false) →
        (resolve_entity k d st).1 = some st.apiNextPk ∧
        (resolve_entity k d st).2.api = st.api ++ [⟨k, st.apiNextPk, d⟩] ∧
        (resolve_entity k d st).2.writer = st.writer) := by
  constructor
  · intro k d st hcf
    cases k <;> simp [writerSupportedKinds, writerCreate, hcf, writerAddPartRow,
      writerAddPartparameter, writerAddPartrelated, writerAddManufacturerpart,
      writerAddAttachment, writerAddSupplierpart, getNextId]
  · intro k d st hact hcf hks hf hc hs
    have hdict : aget (updateMap (cacheOf st k)
        (entityDictOf k (st.api.filter (·.kind == k)))) (compositeKey k d) = Option.none := by
      apply aget_updateMap_dict_none
      · exact hc
      · intro e he
        rcases List.mem_filter.mp he with ⟨he1, he2⟩
        exact hs e he1 (by simpa using he2)
    have hwc := writerCreate_unsupported k d
      { st with caches := aset st.caches k (updateMap (cacheOf st k)
          (entityDictOf k (st.api.filter (·.kind == k)))) } hks hcf
    simp only [resolve_entity, lut_ne_empty, Bool.false_eq_true, if_false, hc, hf, hdict,
      hact, if_true, hwc, apiCreate]
    exact ⟨rfl, rfl, rfl⟩

/-- Witness for C10 at the unsupported kind PartCategory in shadow mode. -/
theorem C10_shadow_mode_kind_support_witness :
    (((writerCreate .PartCategory [] shadowSt).1.isSome = true) ↔
      EntityKind.PartCategory ∈ writerSupportedKinds) ∧
    ((resolve_entity .PartCategory [("name", PyVal.str "C"), ("parent", PyVal.none)]
        shadowSt).1 = some 1 ∧
     (resolve_entity .PartCategory [("name", PyVal.str "C"), ("parent", PyVal.none)]
        shadowSt).2.api =
       shadowSt.api ++ [⟨.PartCategory, 1, [("name", PyVal.str "C"), ("parent", PyVal.none)]⟩] ∧
     (resolve_entity .PartCategory [("name", PyVal.str "C"), ("parent", PyVal.none)]
        shadowSt).2.writer = shadowSt.writer) := by
  constructor
  · exact C10_shadow_mode_kind_support.1 .PartCategory [] shadowSt (by decide)
  · exact C10_shadow_mode_kind_support.2 .PartCategory
      [("name", PyVal.str "C"), ("parent", PyVal.none)] shadowSt
      (by decide) (by decide) (by decide) (by decide) (by decide)
      (by intro e he _; simp [shadowSt, initSt] at he)

end AnyInventree
